import Mathlib

/-!
Verification of the prime-mcp-server request pipeline core: the token-bucket
rate limiter (`src/client/rate-limiter.ts`), the OAuth2 client
(`src/client/oauth.ts`) and the HTTP request executor
(`src/client/prime-client.ts`), shallowly embedded in Lean.

Times are modelled as integer milliseconds (JavaScript `Date.now()` values);
all JS numbers that stay integral in the source are modelled as `Int`.
JavaScript `Math.floor(a / b)` on integers coincides with Lean's Euclidean
`Int` division `a / b`, and `Math.ceil(a / b)` with `(a + b - 1) / b`.
-/

/-! ## JavaScript `parseInt(s, 10)`

Model of `parseInt` with radix 10 as used on header values: skip leading
whitespace, consume an optional sign, then the longest prefix of decimal
digits; the result is `none` (JavaScript `NaN`) when that prefix is empty.
(Very large values lose float precision in JS; irrelevant at header scale.) -/

def jsWhitespace (c : Char) : Bool :=
  c = ' ' ∨ c = '\t' ∨ c = '\n' ∨ c = '\r'

def digitsVal (ds : List Char) : Nat :=
  ds.foldl (fun a c => a * 10 + (c.toNat - '0'.toNat)) 0

def parseIntJs (s : String) : Option Int :=
  let cs := s.data.dropWhile jsWhitespace
  let signed : Int × List Char :=
    match cs with
    | '-' :: t => (-1, t)
    | '+' :: t => (1, t)
    | _ => (1, cs)
  let ds := signed.2.takeWhile Char.isDigit
  if ds.isEmpty then none else some (signed.1 * (digitsVal ds : Int))

/-! ## Error taxonomy

`RateLimitError` and `PrimeApiError` from the source, restricted to the
machine-relevant fields (human-readable `message` strings and the `details`
payload are elided). A `RateLimitError.retryAfter` of JavaScript `NaN`
(from `parseInt` on a malformed header) is modelled as `none`. -/

inductive PrimeError where
  | rateLimit (retryAfter : Option Int)
  | api (code : String) (statusCode : Nat)
  deriving DecidableEq, Repr

/-- The `retrySeconds` computation of `PrimeClient.handleErrorResponse`
(case 429): `retryAfter ? parseInt(retryAfter, 10) : 60`. An absent header
(`null`) and an empty string are both falsy in JS, hence default to 60;
a non-empty header goes through `parseInt` and may yield `NaN` (`none`). -/
def retrySecondsOf (h : Option String) : Option Int :=
  match h with
  | none => some 60
  | some s => if s = "" then some 60 else parseIntJs s

/-- `PrimeClient.handleErrorResponse` (prime-client.ts lines 196-259):
maps an HTTP error status and the `retry-after` header to the raised error.
The message-string construction from the response body is elided. -/
def handleErrorResponse (status : Nat) (retryAfterHeader : Option String) :
    PrimeError :=
  if status = 401 then .api "UNAUTHORIZED" status
  else if status = 403 then .api "FORBIDDEN" status
  else if status = 404 then .api "NOT_FOUND" status
  else if status = 422 then .api "VALIDATION_ERROR" status
  else if status = 429 then .rateLimit (retrySecondsOf retryAfterHeader)
  else if status = 500 ∨ status = 502 ∨ status = 503 ∨ status = 504 then
    .api "SERVER_ERROR" status
  else .api "API_ERROR" status

/-! ## RateLimiter (rate-limiter.ts)

State fields exactly as in the class; the waiter queue holds opaque
resolver callbacks, modelled as a list of caller tags. `getNextMidnight()`
depends on the host calendar, so each state transition that may call it
takes the value it would return (`nextMidnight`) as an explicit parameter. -/

structure RateLimiter where
  tokens : Int
  lastRefill : Int
  dailyCount : Int
  dailyReset : Int
  concurrent : Int
  waitingQueue : List Nat
  deriving DecidableEq, Repr

def rlMaxTokens : Int := 60
def rlRefillInterval : Int := 60000
def rlDailyLimit : Int := 5000
def rlMaxConcurrent : Int := 5

/-- `new RateLimiter()` at time `startTime` whose next midnight is `nm`. -/
def initLimiter (startTime nm : Int) : RateLimiter :=
  { tokens := rlMaxTokens, lastRefill := startTime, dailyCount := 0,
    dailyReset := nm, concurrent := 0, waitingQueue := [] }

/-- `RateLimiter.refillTokens` (lines 57-73): reset the daily counter when
the reset instant has passed, then refill per-minute tokens when at least
one full interval elapsed. `Math.floor(elapsed / interval)` is `Int`
floor division, exact here since the branch guarantees `elapsed > 0`. -/
def refillTokens (now nm : Int) (s : RateLimiter) : RateLimiter :=
  let s1 := if s.dailyReset ≤ now
    then { s with dailyCount := 0, dailyReset := nm }
    else s
  let elapsed := now - s1.lastRefill
  if rlRefillInterval ≤ elapsed then
    let refills := elapsed / rlRefillInterval
    { s1 with
        tokens := min rlMaxTokens (s1.tokens + refills * rlMaxTokens),
        lastRefill := now - elapsed % rlRefillInterval }
  else s1

/-- JavaScript `Math.ceil(d / 1000)` on an integer `d`; with Euclidean
division `(d + 999) / 1000` is the exact ceiling for every integer. -/
def jsCeilDiv1000 (d : Int) : Int := (d + 999) / 1000

/-- Outcome of one synchronous admission attempt in `RateLimiter.acquire`
(lines 79-106). `quotaExceeded` is the thrown `RateLimitError`;
`blockedConcurrency` and `blockedTokens` are the two suspension points
(`waitForSlot`, the refill sleep), at which the caller re-runs the checks
on wakeup; `admitted` is the successful fall-through. -/
inductive AcquireOutcome where
  | quotaExceeded (retryAfter : Int)
  | blockedConcurrency
  | blockedTokens
  | admitted
  deriving DecidableEq, Repr

/-- The first, synchronous segment of `RateLimiter.acquire` run by caller
`c`, up to its first suspension or completion: refill, the daily
hard-limit check, the concurrency gate (a blocked caller pushes its
resolver onto `waitingQueue`), the per-minute token gate, then the
decrement/increment triple. A caller that suspends resumes *inside* the
corresponding `while` loop, not at the top of `acquire`: those resumption
segments are modelled separately by `LimiterSim` below — in particular a
token-sleep wake re-checks only `tokens <= 0`, not the concurrency gate
or the daily limit. -/
def acquireStep (now nm : Int) (c : Nat) (s : RateLimiter) :
    AcquireOutcome × RateLimiter :=
  let s1 := refillTokens now nm s
  if rlDailyLimit ≤ s1.dailyCount then
    (.quotaExceeded (jsCeilDiv1000 (s1.dailyReset - now)), s1)
  else if rlMaxConcurrent ≤ s1.concurrent then
    (.blockedConcurrency, { s1 with waitingQueue := s1.waitingQueue ++ [c] })
  else if s1.tokens ≤ 0 then
    (.blockedTokens, s1)
  else
    (.admitted,
      { s1 with tokens := s1.tokens - 1, dailyCount := s1.dailyCount + 1,
                concurrent := s1.concurrent + 1 })

/-- `RateLimiter.release` (lines 111-119): floor the in-flight count at
zero and wake the oldest waiter (`shift` pops the queue head). -/
def releaseSlot (s : RateLimiter) : RateLimiter :=
  { s with concurrent := max 0 (s.concurrent - 1),
           waitingQueue := s.waitingQueue.tail }

/-- `RateLimiter.updateFromHeaders` (lines 134-152) on the two optional
rate-limit headers. `headers.get` yields `null` (`none`) for an absent
header; a present header is parsed with `parseInt` and ignored on `NaN`. -/
def updateFromHeaders (minuteH dayH : Option String) (s : RateLimiter) :
    RateLimiter :=
  let s1 := match minuteH with
    | none => s
    | some str =>
      match parseIntJs str with
      | none => s
      | some r => { s with tokens := min r s.tokens }
  match dayH with
  | none => s1
  | some str =>
    match parseIntJs str with
    | none => s1
    | some r => { s1 with dailyCount := rlDailyLimit - r }

/-! ### Interleaved executions of `acquire`/`release`

`acquire` (lines 79-106) has two sequential `while` loops. A caller
suspended in `waitForSlot` resumes at the top of the *concurrency* loop
and re-evaluates `concurrent >= maxConcurrent`; but a caller suspended in
the per-minute `sleep` resumes at the top of the *token* loop, runs
`refillTokens()` and re-evaluates only `tokens <= 0` before falling
through to `concurrent++` — the concurrency gate and the daily check are
not re-run there. `LimiterSim` tracks, besides the limiter state, how many
callers sit at each suspension point: `runnableSlot` counts waiters whose
resolver `release()` has already popped and called but whose coroutine has
not yet resumed, and `tokenSleepers` counts callers parked in the token
sleep (they already passed the concurrency gate once). -/

structure LimiterSim where
  rl : RateLimiter
  runnableSlot : Nat
  tokenSleepers : Nat
  deriving DecidableEq, Repr

def initSim (t0 nm : Int) : LimiterSim :=
  { rl := initLimiter t0 nm, runnableSlot := 0, tokenSleepers := 0 }

/-- A fresh caller runs the entry segment of `acquire` (`acquireStep`);
if it hits the token gate with no tokens it parks in the token sleep. -/
def simEnter (now nm : Int) (c : Nat) (t : LimiterSim) : LimiterSim :=
  match acquireStep now nm c t.rl with
  | (.quotaExceeded _, s1) => { t with rl := s1 }
  | (.blockedConcurrency, s1) => { t with rl := s1 }
  | (.blockedTokens, s1) =>
    { t with rl := s1, tokenSleepers := t.tokenSleepers + 1 }
  | (.admitted, s1) => { t with rl := s1 }

/-- A caller woken from `waitForSlot` resumes at the top of the
concurrency `while` loop (lines 92-94): it re-evaluates the gate (parking
again on failure), then runs the token check — with no refill and no
daily re-check — parking in the token sleep or admitting. -/
def simSlotWake (c : Nat) (t : LimiterSim) : LimiterSim :=
  if t.runnableSlot = 0 then t
  else
    let t0 : LimiterSim := { t with runnableSlot := t.runnableSlot - 1 }
    if rlMaxConcurrent ≤ t0.rl.concurrent then
      { t0 with rl := { t0.rl with waitingQueue := t0.rl.waitingQueue ++ [c] } }
    else if t0.rl.tokens ≤ 0 then
      { t0 with tokenSleepers := t0.tokenSleepers + 1 }
    else
      { t0 with rl := { t0.rl with tokens := t0.rl.tokens - 1, dailyCount := t0.rl.dailyCount + 1, concurrent := t0.rl.concurrent + 1 } }

/-- A caller woken from the per-minute sleep resumes inside the token
`while` loop (lines 97-101): it runs `refillTokens()` and re-checks only
`tokens <= 0` — sleeping again if tokens are still exhausted, and
otherwise falling through to `tokens--; dailyCount++; concurrent++`
with no re-check of the concurrency gate or the daily limit. -/
def simTokenWake (now nm : Int) (t : LimiterSim) : LimiterSim :=
  if t.tokenSleepers = 0 then t
  else
    let s1 := refillTokens now nm t.rl
    if s1.tokens ≤ 0 then { t with rl := s1 }
    else
      { rl := { s1 with tokens := s1.tokens - 1, dailyCount := s1.dailyCount + 1, concurrent := s1.concurrent + 1 }, runnableSlot := t.runnableSlot, tokenSleepers := t.tokenSleepers - 1 }

/-- `release()`: floor the in-flight count, pop the queue head and call
its resolver — the popped waiter becomes runnable (its coroutine resumes
in a later microtask, as `simSlotWake`). -/
def simRelease (t : LimiterSim) : LimiterSim :=
  { rl := releaseSlot t.rl,
    runnableSlot :=
      t.runnableSlot + (if t.rl.waitingQueue.isEmpty then 0 else 1),
    tokenSleepers := t.tokenSleepers }

/-- An interleaved history of the synchronous segments of concurrent
`acquire()` calls and `release()` calls, each acquire segment with its
own clock reading and next-midnight value. -/
inductive SimOp where
  | enter (now nm : Int) (c : Nat)
  | slotWake (c : Nat)
  | tokenWake (now nm : Int)
  | rel
  deriving DecidableEq, Repr

def isTokenWake : SimOp → Bool
  | .tokenWake _ _ => true
  | _ => false

def applySimOp (t : LimiterSim) : SimOp → LimiterSim
  | .enter now nm c => simEnter now nm c t
  | .slotWake c => simSlotWake c t
  | .tokenWake now nm => simTokenWake now nm t
  | .rel => simRelease t

def runSim (ops : List SimOp) (t : LimiterSim) : LimiterSim :=
  ops.foldl applySimOp t

/-- A schedule that over-admits: exhaust the 60 per-minute tokens with 60
admit/release pairs, park three callers in the token sleep (each passes
the concurrency gate at `concurrent = 0`), admit five fresh callers after
the minute refill (filling the ceiling), then let one parked sleeper's
timer fire: it sees tokens available and increments `concurrent` to 6. -/
def overAdmitOps : List SimOp :=
  (List.replicate 60 [SimOp.enter 0 900000000 0, SimOp.rel]).flatten
    ++ [SimOp.enter 0 900000000 1, SimOp.enter 0 900000000 2,
        SimOp.enter 0 900000000 3,
        SimOp.enter 60000 900000000 4, SimOp.enter 60000 900000000 5,
        SimOp.enter 60000 900000000 6, SimOp.enter 60000 900000000 7,
        SimOp.enter 60000 900000000 8,
        SimOp.tokenWake 60000 900000000]

/-! ## OAuthClient (oauth.ts) -/

structure OAuthToken where
  access_token : String
  token_type : String
  expires_in : Int
  refresh_token : Option String
  deriving DecidableEq, Repr

def REFRESH_BUFFER_MS : Int := 5 * 60 * 1000

/-- The `OAuthClient` instance fields plus the observable interaction
record of an execution: `refreshActive` models `refreshPromise !== null`,
`waiters` the callers awaiting that single promise (including its
initiator), `results` the access-token values returned to callers so far,
and `requests` the number of POSTs issued to the token endpoint. -/
structure OAuthClientModel where
  token : Option OAuthToken
  tokenExpiresAt : Int
  refreshActive : Bool
  waiters : List Nat
  results : List (Nat × String)
  requests : Nat
  deriving DecidableEq, Repr

def initOAuth : OAuthClientModel :=
  { token := none, tokenExpiresAt := 0, refreshActive := false,
    waiters := [], results := [], requests := 0 }

/-- `OAuthClient.hasValidToken` (lines 137-139), also the guard of
`getAccessToken`: a token is cached and `Date.now()` is still clear of the
expiry instant by more than the refresh buffer. -/
def hasValidToken (now : Int) (t : OAuthClientModel) : Bool :=
  t.token.isSome ∧ now < t.tokenExpiresAt - REFRESH_BUFFER_MS

/-- The synchronous prefix of `OAuthClient.getAccessToken` (lines 41-61)
run by caller `c` at time `now`: join an in-flight acquisition if one
exists, else return the cached token when still valid, else start a new
acquisition (one `fetch` to the token endpoint) and await it. The three
checks and the `refreshPromise` assignment run without interleaving
(no `await` between them on the single-threaded event loop). -/
def getAccessTokenStep (now : Int) (t : OAuthClientModel) (c : Nat) :
    OAuthClientModel :=
  if t.refreshActive then { t with waiters := t.waiters ++ [c] }
  else
    match t.token with
    | some tok =>
      if now < t.tokenExpiresAt - REFRESH_BUFFER_MS then
        { t with results := t.results ++ [(c, tok.access_token)] }
      else
        { t with refreshActive := true, waiters := t.waiters ++ [c],
                 requests := t.requests + 1 }
    | none =>
      { t with refreshActive := true, waiters := t.waiters ++ [c],
               requests := t.requests + 1 }

/-- Completion of the in-flight `acquireToken` (lines 103-111) at time
`tc` with token payload `tok`: store the token, compute the absolute
expiry as `Date.now() + expires_in * 1000`, hand `tok.access_token` to
every awaiting caller, and clear `refreshPromise` (the `finally`). -/
def acquireTokenComplete (tc : Int) (tok : OAuthToken)
    (t : OAuthClientModel) : OAuthClientModel :=
  { token := some tok, tokenExpiresAt := tc + tok.expires_in * 1000,
    refreshActive := false, waiters := [],
    results := t.results ++ t.waiters.map (fun c => (c, tok.access_token)),
    requests := t.requests }

/-- A burst of callers entering `getAccessToken` at time `now`, in order,
before any acquisition completes. -/
def entersAll (now : Int) (cs : List Nat) (t : OAuthClientModel) :
    OAuthClientModel :=
  cs.foldl (getAccessTokenStep now) t

/-! ## PrimeClient.request (prime-client.ts lines 57-122)

The executor is embedded as the sequence of collaborator interactions it
performs (`ReqEvent` list, in order) together with its outcome, driven by
the scripted responses the network returns to its successive `fetch`
calls. Token supply is assumed to succeed; admission is modelled at the
top level by `requestTop` (the recursive 401 retry re-enters `request`,
hence emits its own `acquire`/`release` pair). -/

structure FetchResponse where
  status : Nat
  retryAfterHeader : Option String
  minuteHeader : Option String
  dayHeader : Option String
  bodyIsJsonApiError : Bool
  deriving DecidableEq, Repr

/-- `Response.ok`: status in the inclusive range 200-299. -/
def responseOk (r : FetchResponse) : Bool :=
  200 ≤ r.status ∧ r.status < 300

inductive ReqEvent where
  | acquire
  | release
  | getToken
  | fetchCall
  | syncHeaders
  | forceRefresh
  deriving DecidableEq, Repr

inductive ReqOutcome where
  | success
  | success204
  | failure (e : PrimeError)
  | transportFailure
  | suspended
  deriving DecidableEq, Repr

/-- The post-401-check tail of `request` (lines 86-108) on response `r`:
error classification for non-ok statuses, the 204 empty result, the
JSON:API error-envelope check, and success. -/
def classifyNoRetry (r : FetchResponse) : ReqOutcome :=
  if responseOk r = false then
    .failure (handleErrorResponse r.status r.retryAfterHeader)
  else if r.status = 204 then .success204
  else if r.bodyIsJsonApiError then
    .failure (.api "VALIDATION_ERROR" r.status)
  else .success

/-- One full `request` invocation with `retryOnAuthError: false` (the
retried inner call): acquire, get a token, fetch, sync headers, classify,
release in the `finally`. An exhausted script models a rejected `fetch`
(transport failure), which skips the header sync but still releases. -/
def requestNoRetryRun : List FetchResponse → List ReqEvent × ReqOutcome
  | [] => ([.acquire, .getToken, .fetchCall, .release], .transportFailure)
  | r :: _ =>
    ([.acquire, .getToken, .fetchCall, .syncHeaders, .release],
     classifyNoRetry r)

/-- One full `request` invocation with the default options
(`retryOnAuthError` unset, hence `!== false`): on a 401 it refreshes the
token and recursively re-invokes `request` with the retry disabled; the
outer `finally` releases only after the inner call returns, so the inner
call's own acquire/release pair nests inside the outer slot's lifetime. -/
def requestRun : List FetchResponse → List ReqEvent × ReqOutcome
  | [] => ([.acquire, .getToken, .fetchCall, .release], .transportFailure)
  | r :: rest =>
    if r.status = 401 then
      let inner := requestNoRetryRun rest
      ([.acquire, .getToken, .fetchCall, .syncHeaders, .forceRefresh]
        ++ inner.1 ++ [.release], inner.2)
    else
      ([.acquire, .getToken, .fetchCall, .syncHeaders, .release],
       classifyNoRetry r)

/-- `request` including the initial `rateLimiter.acquire()` (line 58),
which sits outside the `try`: a thrown `RateLimitError` propagates with no
fetch and no release, and a suspended admission performs nothing further
synchronously. On admission the body runs as `requestRun` (whose leading
`acquire` event is this admission). -/
def requestTop (now nm : Int) (c : Nat) (s : RateLimiter)
    (responses : List FetchResponse) :
    List ReqEvent × ReqOutcome × RateLimiter :=
  match acquireStep now nm c s with
  | (.quotaExceeded ra, s1) =>
    ([.acquire], .failure (.rateLimit (some ra)), s1)
  | (.blockedConcurrency, s1) => ([.acquire], .suspended, s1)
  | (.blockedTokens, s1) => ([.acquire], .suspended, s1)
  | (.admitted, s1) =>
    let body := requestRun responses
    (body.1, body.2, s1)

/-! ## Concrete sample values used by witnesses and counterexamples -/

/-- A limiter state whose daily allowance is fully consumed. -/
def qSample : RateLimiter :=
  { tokens := 60, lastRefill := 0, dailyCount := 5000,
    dailyReset := 1000000, concurrent := 0, waitingQueue := [] }

/-- A limiter state with 30 per-minute tokens left. -/
def tSample : RateLimiter :=
  { tokens := 30, lastRefill := 0, dailyCount := 0,
    dailyReset := 999999999, concurrent := 0, waitingQueue := [] }

/-! ## Helper lemmas -/

lemma refillTokens_concurrent (now nm : Int) (s : RateLimiter) :
    (refillTokens now nm s).concurrent = s.concurrent := by
  simp only [refillTokens]
  split <;> split <;> rfl

lemma refillTokens_waitingQueue (now nm : Int) (s : RateLimiter) :
    (refillTokens now nm s).waitingQueue = s.waitingQueue := by
  simp only [refillTokens]
  split <;> split <;> rfl

/-- Either the daily reset fired (zeroing the counter) or it did not, in
which case `now` precedes the (unchanged) reset instant. -/
lemma refillTokens_daily (now nm : Int) (s : RateLimiter) :
    ((refillTokens now nm s).dailyCount = 0
      ∧ (refillTokens now nm s).dailyReset = nm)
    ∨ (now < s.dailyReset
      ∧ (refillTokens now nm s).dailyCount = s.dailyCount
      ∧ (refillTokens now nm s).dailyReset = s.dailyReset) := by
  simp only [refillTokens]
  by_cases hd : s.dailyReset ≤ now
  · left
    simp only [if_pos hd]
    split <;> exact ⟨rfl, rfl⟩
  · right
    refine ⟨by omega, ?_⟩
    simp only [if_neg hd]
    split <;> exact ⟨rfl, rfl⟩

lemma acquireStep_concurrent (now nm : Int) (c : Nat) (s : RateLimiter) :
    (acquireStep now nm c s).2.concurrent = s.concurrent
    ∨ (s.concurrent < rlMaxConcurrent
       ∧ (acquireStep now nm c s).2.concurrent = s.concurrent + 1) := by
  have hc := refillTokens_concurrent now nm s
  simp only [acquireStep]
  split
  · left; exact hc
  · split
    · left; exact hc
    · split
      · left; exact hc
      · right
        rename_i hq hcc ht
        rw [hc] at hcc
        refine ⟨by omega, ?_⟩
        show (refillTokens now nm s).concurrent + 1 = s.concurrent + 1
        rw [hc]

lemma simEnter_rl (now nm : Int) (c : Nat) (t : LimiterSim) :
    (simEnter now nm c t).rl = (acquireStep now nm c t.rl).2 := by
  rcases h : acquireStep now nm c t.rl with ⟨outcome, s1⟩
  cases outcome <;> simp [simEnter, h]

lemma simEnter_concurrent (now nm : Int) (c : Nat) (t : LimiterSim) :
    (simEnter now nm c t).rl.concurrent = t.rl.concurrent
    ∨ (t.rl.concurrent < rlMaxConcurrent
       ∧ (simEnter now nm c t).rl.concurrent = t.rl.concurrent + 1) := by
  rw [simEnter_rl]
  exact acquireStep_concurrent now nm c t.rl

lemma simSlotWake_concurrent (c : Nat) (t : LimiterSim) :
    (simSlotWake c t).rl.concurrent = t.rl.concurrent
    ∨ (t.rl.concurrent < rlMaxConcurrent
       ∧ (simSlotWake c t).rl.concurrent = t.rl.concurrent + 1) := by
  simp only [simSlotWake]
  split
  · left; rfl
  · split
    · left; rfl
    · split
      · left; rfl
      · right
        rename_i hrun hcc ht
        have hcc2 : ¬ rlMaxConcurrent ≤ t.rl.concurrent := hcc
        exact ⟨by omega, rfl⟩

lemma simTokenWake_concurrent (now nm : Int) (t : LimiterSim) :
    (simTokenWake now nm t).rl.concurrent = t.rl.concurrent
    ∨ (simTokenWake now nm t).rl.concurrent = t.rl.concurrent + 1 := by
  simp only [simTokenWake]
  split
  · left; rfl
  · split
    · left; exact refillTokens_concurrent now nm t.rl
    · right
      show (refillTokens now nm t.rl).concurrent + 1 = t.rl.concurrent + 1
      rw [refillTokens_concurrent]

lemma applySimOp_nonneg (t : LimiterSim) (op : SimOp)
    (h0 : 0 ≤ t.rl.concurrent) : 0 ≤ (applySimOp t op).rl.concurrent := by
  cases op with
  | enter now nm c =>
    rcases simEnter_concurrent now nm c t with h | ⟨_, h⟩ <;> rw [applySimOp, h] <;> omega
  | slotWake c =>
    rcases simSlotWake_concurrent c t with h | ⟨_, h⟩ <;> rw [applySimOp, h] <;> omega
  | tokenWake now nm =>
    rcases simTokenWake_concurrent now nm t with h | h <;> rw [applySimOp, h] <;> omega
  | rel =>
    show 0 ≤ max 0 (t.rl.concurrent - 1)
    omega

lemma runSim_nonneg (ops : List SimOp) (t : LimiterSim)
    (h0 : 0 ≤ t.rl.concurrent) : 0 ≤ (runSim ops t).rl.concurrent := by
  induction ops generalizing t with
  | nil => exact h0
  | cons op ops ih => exact ih (applySimOp t op) (applySimOp_nonneg t op h0)

lemma applySimOp_ceiling (t : LimiterSim) (op : SimOp)
    (h0 : 0 ≤ t.rl.concurrent) (h5 : t.rl.concurrent ≤ rlMaxConcurrent)
    (hnw : isTokenWake op = false) :
    0 ≤ (applySimOp t op).rl.concurrent
    ∧ (applySimOp t op).rl.concurrent ≤ rlMaxConcurrent := by
  cases op with
  | enter now nm c =>
    rcases simEnter_concurrent now nm c t with h | ⟨hlt, h⟩ <;> rw [applySimOp, h]
    · exact ⟨h0, h5⟩
    · exact ⟨by omega, by omega⟩
  | slotWake c =>
    rcases simSlotWake_concurrent c t with h | ⟨hlt, h⟩ <;> rw [applySimOp, h]
    · exact ⟨h0, h5⟩
    · exact ⟨by omega, by omega⟩
  | tokenWake now nm => simp [isTokenWake] at hnw
  | rel =>
    show 0 ≤ max 0 (t.rl.concurrent - 1)
      ∧ max 0 (t.rl.concurrent - 1) ≤ rlMaxConcurrent
    omega

lemma runSim_ceiling (ops : List SimOp) (t : LimiterSim)
    (h0 : 0 ≤ t.rl.concurrent) (h5 : t.rl.concurrent ≤ rlMaxConcurrent)
    (hnw : ∀ op ∈ ops, isTokenWake op = false) :
    0 ≤ (runSim ops t).rl.concurrent
    ∧ (runSim ops t).rl.concurrent ≤ rlMaxConcurrent := by
  induction ops generalizing t with
  | nil => exact ⟨h0, h5⟩
  | cons op ops ih =>
    have hstep := applySimOp_ceiling t op h0 h5
      (hnw op (List.mem_cons_self op ops))
    exact ih (applySimOp t op) hstep.1 hstep.2
      (fun o ho => hnw o (List.mem_cons_of_mem op ho))

lemma runSim_append (a b : List SimOp) (t : LimiterSim) :
    runSim (a ++ b) t = runSim b (runSim a t) := by
  simp [runSim, List.foldl_append]

/-- One admit/release pair at time 0 consumes one token and returns the
in-flight count to zero. -/
lemma drainPairStep (tk d : Int) (h1 : 1 ≤ tk) (h2 : d < 5000) :
    runSim [SimOp.enter 0 900000000 0, SimOp.rel]
      ⟨⟨tk, 0, d, 900000000, 0, []⟩, 0, 0⟩
    = ⟨⟨tk - 1, 0, d + 1, 900000000, 0, []⟩, 0, 0⟩ := by
  have hrefill : refillTokens 0 900000000
      (⟨tk, 0, d, 900000000, 0, []⟩ : RateLimiter)
      = ⟨tk, 0, d, 900000000, 0, []⟩ := by
    simp [refillTokens, rlRefillInterval]
  have hacq : acquireStep 0 900000000 0
      (⟨tk, 0, d, 900000000, 0, []⟩ : RateLimiter)
      = (.admitted, ⟨tk - 1, 0, d + 1, 900000000, 1, []⟩) := by
    simp only [acquireStep, hrefill, rlDailyLimit, rlMaxConcurrent]
    rw [if_neg (by omega), if_neg (by norm_num), if_neg (by omega)]
    norm_num
  have henter : applySimOp ⟨⟨tk, 0, d, 900000000, 0, []⟩, 0, 0⟩
      (SimOp.enter 0 900000000 0)
      = ⟨⟨tk - 1, 0, d + 1, 900000000, 1, []⟩, 0, 0⟩ := by
    simp only [applySimOp, simEnter, hacq]
  show applySimOp (applySimOp ⟨⟨tk, 0, d, 900000000, 0, []⟩, 0, 0⟩
      (SimOp.enter 0 900000000 0)) SimOp.rel = _
  rw [henter]
  simp [applySimOp, simRelease, releaseSlot]

/-- `k` admit/release pairs drain `k` tokens and add `k` daily counts. -/
lemma drainPairs (k : Nat) : ∀ (tk d : Int), (k : Int) ≤ tk →
    d + k ≤ 5000 →
    runSim ((List.replicate k
        [SimOp.enter 0 900000000 0, SimOp.rel]).flatten)
      ⟨⟨tk, 0, d, 900000000, 0, []⟩, 0, 0⟩
    = ⟨⟨tk - k, 0, d + k, 900000000, 0, []⟩, 0, 0⟩ := by
  induction k with
  | zero =>
    intro tk d h1 h2
    simp [runSim]
  | succ k ih =>
    intro tk d h1 h2
    show runSim ([SimOp.enter 0 900000000 0, SimOp.rel]
        ++ (List.replicate k
            [SimOp.enter 0 900000000 0, SimOp.rel]).flatten)
      ⟨⟨tk, 0, d, 900000000, 0, []⟩, 0, 0⟩ = _
    rw [runSim_append, drainPairStep tk d (by push_cast at h1 ⊢; omega)
      (by push_cast at h2 ⊢; omega)]
    rw [ih (tk - 1) (d + 1) (by push_cast at h1 ⊢; omega)
      (by push_cast at h2 ⊢; omega)]
    congr 1
    push_cast
    ring_nf

set_option maxRecDepth 8000 in
/-- Claim C2 counterexample: an interleaving faithful to `acquire`'s two
sequential `while` loops drives `concurrent` to 6 > 5 from the initial
state — 60 admit/release pairs exhaust the minute tokens, three callers
pass the concurrency gate and park in the token sleep, five fresh callers
fill the ceiling after the refill, and one parked sleeper then wakes,
re-checks only `tokens <= 0`, and increments `concurrent` unchecked. -/
theorem inflightCeiling_cex :
    (runSim overAdmitOps (initSim 0 900000000)).rl.concurrent = 6
    ∧ ¬ (runSim overAdmitOps (initSim 0 900000000)).rl.concurrent
        ≤ rlMaxConcurrent := by
  have hinit : initSim 0 900000000
      = ⟨⟨60, 0, 0, 900000000, 0, []⟩, 0, 0⟩ := rfl
  have h60 := drainPairs 60 60 0 (by norm_num) (by norm_num)
  have hsplit : runSim overAdmitOps (initSim 0 900000000)
      = runSim [SimOp.enter 0 900000000 1, SimOp.enter 0 900000000 2,
          SimOp.enter 0 900000000 3,
          SimOp.enter 60000 900000000 4, SimOp.enter 60000 900000000 5,
          SimOp.enter 60000 900000000 6, SimOp.enter 60000 900000000 7,
          SimOp.enter 60000 900000000 8,
          SimOp.tokenWake 60000 900000000]
        ⟨⟨0, 0, 60, 900000000, 0, []⟩, 0, 0⟩ := by
    rw [show overAdmitOps = (List.replicate 60
        [SimOp.enter 0 900000000 0, SimOp.rel]).flatten
      ++ [SimOp.enter 0 900000000 1, SimOp.enter 0 900000000 2,
          SimOp.enter 0 900000000 3,
          SimOp.enter 60000 900000000 4, SimOp.enter 60000 900000000 5,
          SimOp.enter 60000 900000000 6, SimOp.enter 60000 900000000 7,
          SimOp.enter 60000 900000000 8,
          SimOp.tokenWake 60000 900000000] from rfl]
    rw [runSim_append, hinit, h60]
    norm_num
  rw [hsplit]
  decide

/-- Claim C2 (amended): for every sequence of acquire segments and
releases from the initial state, the in-flight count never goes negative
(release floors it at zero even when called more times than acquisitions
succeeded), and it never exceeds the ceiling of 5 as long as no admission
completes through the per-minute token-sleep wake path — entry and
slot-wake admissions increment only behind the `concurrent >=
maxConcurrent` gate, but an admission resuming from the token sleep
re-checks only the token count and increments `concurrent` unchecked, so
the ceiling can be exceeded. -/
theorem inflightBounds_amended (ops : List SimOp) (t0 nm : Int) :
    0 ≤ (runSim ops (initSim t0 nm)).rl.concurrent
    ∧ ((∀ op ∈ ops, isTokenWake op = false) →
        (runSim ops (initSim t0 nm)).rl.concurrent ≤ rlMaxConcurrent) := by
  constructor
  · exact runSim_nonneg ops (initSim t0 nm) (by simp [initSim, initLimiter])
  · intro hnw
    exact (runSim_ceiling ops (initSim t0 nm)
      (by simp [initSim, initLimiter])
      (by simp [initSim, initLimiter, rlMaxConcurrent]) hnw).2

/-- Claim C2 witness: a token-wake-free schedule of two admissions and
three releases stays within the bounds. -/
theorem inflightBounds_amended_witness :
    (∀ op ∈ ([SimOp.enter 0 7 1, SimOp.enter 0 7 2, SimOp.rel,
        SimOp.rel, SimOp.rel] : List SimOp), isTokenWake op = false)
    ∧ 0 ≤ (runSim [SimOp.enter 0 7 1, SimOp.enter 0 7 2, SimOp.rel,
        SimOp.rel, SimOp.rel] (initSim 0 7)).rl.concurrent
    ∧ (runSim [SimOp.enter 0 7 1, SimOp.enter 0 7 2, SimOp.rel,
        SimOp.rel, SimOp.rel] (initSim 0 7)).rl.concurrent
        ≤ rlMaxConcurrent :=
  ⟨by decide,
   (inflightBounds_amended [SimOp.enter 0 7 1, SimOp.enter 0 7 2,
      SimOp.rel, SimOp.rel, SimOp.rel] 0 7).1,
   (inflightBounds_amended [SimOp.enter 0 7 1, SimOp.enter 0 7 2,
      SimOp.rel, SimOp.rel, SimOp.rel] 0 7).2 (by decide)⟩

/-- Claim C4: whenever at least one full refill interval elapsed since
`lastRefill`, `refillTokens` restores the per-minute allowance to exactly
its cap of 60 (for any reachable, i.e. nonnegative, token count), for
arbitrarily long idle gaps the accumulated refill is capped at the
maximum rather than exceeding it, and for an elapsed time shorter than
one interval the allowance is unchanged. -/
theorem refillTokens_capBehavior (now nm : Int) (s : RateLimiter) :
    (0 ≤ s.tokens → rlRefillInterval ≤ now - s.lastRefill →
      (refillTokens now nm s).tokens = rlMaxTokens)
    ∧ (s.tokens ≤ rlMaxTokens →
      (refillTokens now nm s).tokens ≤ rlMaxTokens)
    ∧ (now - s.lastRefill < rlRefillInterval →
      (refillTokens now nm s).tokens = s.tokens) := by
  have hsplit : (refillTokens now nm s).tokens
      = (if rlRefillInterval ≤ now - s.lastRefill then
          min rlMaxTokens
            (s.tokens + ((now - s.lastRefill) / rlRefillInterval) * rlMaxTokens)
        else s.tokens) := by
    simp only [refillTokens]
    split <;> split <;> rfl
  rw [hsplit]
  refine ⟨?_, ?_, ?_⟩
  · intro h0 he
    rw [if_pos he]
    unfold rlRefillInterval rlMaxTokens at *
    omega
  · intro hle
    split
    · unfold rlMaxTokens at *
      omega
    · exact hle
  · intro hlt
    rw [if_neg (by omega)]

/-- Claim C4 witness: from 30 tokens, two full elapsed minutes refill to
exactly 60; the result never exceeds 60; 100ms of elapsed time changes
nothing. -/
theorem refillTokens_capBehavior_witness :
    ((0 : Int) ≤ tSample.tokens
      ∧ rlRefillInterval ≤ 120000 - tSample.lastRefill
      ∧ (refillTokens 120000 5 tSample).tokens = rlMaxTokens)
    ∧ (tSample.tokens ≤ rlMaxTokens
      ∧ (refillTokens 120000 5 tSample).tokens ≤ rlMaxTokens)
    ∧ (100 - tSample.lastRefill < rlRefillInterval
      ∧ (refillTokens 100 5 tSample).tokens = tSample.tokens) :=
  ⟨⟨by decide, by decide,
    (refillTokens_capBehavior 120000 5 tSample).1 (by decide) (by decide)⟩,
   ⟨by decide,
    (refillTokens_capBehavior 120000 5 tSample).2.1 (by decide)⟩,
   ⟨by decide,
    (refillTokens_capBehavior 100 5 tSample).2.2 (by decide)⟩⟩

/-- Claim C3: once the daily count has reached the daily limit (after the
refill/reset recomputation), `acquire` fails immediately with a
`RateLimitError` whose `retryAfter` is the (rounded-up) number of seconds
until the daily reset instant, without suspending, without consuming any
allowance (the state is exactly the refilled state), and — via the
executor, whose admission call precedes its `try` block — without any
network call being made. -/
theorem acquireDailyQuota_failFast (now nm : Int) (c : Nat) (s : RateLimiter)
    (resp : List FetchResponse)
    (h : rlDailyLimit ≤ (refillTokens now nm s).dailyCount) :
    acquireStep now nm c s
      = (.quotaExceeded
          (jsCeilDiv1000 ((refillTokens now nm s).dailyReset - now)),
         refillTokens now nm s)
    ∧ now < (refillTokens now nm s).dailyReset
    ∧ (refillTokens now nm s).dailyReset - now
        ≤ 1000 * jsCeilDiv1000 ((refillTokens now nm s).dailyReset - now)
    ∧ 1000 * (jsCeilDiv1000 ((refillTokens now nm s).dailyReset - now) - 1)
        < (refillTokens now nm s).dailyReset - now
    ∧ requestTop now nm c s resp
        = ([ReqEvent.acquire],
           .failure (.rateLimit (some (jsCeilDiv1000
             ((refillTokens now nm s).dailyReset - now)))),
           refillTokens now nm s)
    ∧ ReqEvent.fetchCall ∉ (requestTop now nm c s resp).1 := by
  have hnm : now < (refillTokens now nm s).dailyReset := by
    rcases refillTokens_daily now nm s with ⟨h0, _⟩ | ⟨hlt, _, hr⟩
    · rw [h0] at h
      unfold rlDailyLimit at h
      omega
    · rw [hr]
      exact hlt
  have hstep : acquireStep now nm c s
      = (.quotaExceeded
          (jsCeilDiv1000 ((refillTokens now nm s).dailyReset - now)),
         refillTokens now nm s) := by
    simp only [acquireStep]
    rw [if_pos h]
  have htop : requestTop now nm c s resp
      = ([ReqEvent.acquire],
         .failure (.rateLimit (some (jsCeilDiv1000
           ((refillTokens now nm s).dailyReset - now)))),
         refillTokens now nm s) := by
    simp only [requestTop]
    rw [hstep]
  refine ⟨hstep, hnm, ?_, ?_, htop, ?_⟩
  · unfold jsCeilDiv1000
    omega
  · unfold jsCeilDiv1000
    omega
  · rw [htop]
    simp

/-- Claim C3 witness: with the daily allowance fully consumed and the
reset 999500ms away, admission fails at once with `retryAfter` 1000s. -/
theorem acquireDailyQuota_failFast_witness :
    rlDailyLimit ≤ (refillTokens 500 9 qSample).dailyCount
    ∧ (acquireStep 500 9 0 qSample
        = (.quotaExceeded
            (jsCeilDiv1000 ((refillTokens 500 9 qSample).dailyReset - 500)),
           refillTokens 500 9 qSample)
      ∧ (500 : Int) < (refillTokens 500 9 qSample).dailyReset
      ∧ (refillTokens 500 9 qSample).dailyReset - 500
          ≤ 1000 * jsCeilDiv1000 ((refillTokens 500 9 qSample).dailyReset - 500)
      ∧ 1000 * (jsCeilDiv1000 ((refillTokens 500 9 qSample).dailyReset - 500) - 1)
          < (refillTokens 500 9 qSample).dailyReset - 500
      ∧ requestTop 500 9 0 qSample []
          = ([ReqEvent.acquire],
             .failure (.rateLimit (some (jsCeilDiv1000
               ((refillTokens 500 9 qSample).dailyReset - 500)))),
             refillTokens 500 9 qSample)
      ∧ ReqEvent.fetchCall ∉ (requestTop 500 9 0 qSample []).1) :=
  ⟨by decide, acquireDailyQuota_failFast 500 9 0 qSample [] (by decide)⟩

/-- Claim C5: `updateFromHeaders` sets the per-minute allowance to the
minimum of the reported and local values — a reported value larger than
the local remaining never increases it — and recomputes the daily counter
as `dailyLimit` minus the reported daily-remaining value. -/
theorem updateFromHeaders_minRule (s : RateLimiter) (mstr dstr : String)
    (rm rd : Int) (hm : parseIntJs mstr = some rm)
    (hd : parseIntJs dstr = some rd) :
    (∀ dh, (updateFromHeaders (some mstr) dh s).tokens = min rm s.tokens)
    ∧ (∀ dh, (updateFromHeaders (some mstr) dh s).tokens ≤ s.tokens)
    ∧ (∀ mh, (updateFromHeaders mh (some dstr) s).dailyCount
        = rlDailyLimit - rd) := by
  have h1 : ∀ dh, (updateFromHeaders (some mstr) dh s).tokens
      = min rm s.tokens := by
    intro dh
    cases dh with
    | none => simp only [updateFromHeaders, hm]
    | some str =>
      cases hp : parseIntJs str with
      | none => simp only [updateFromHeaders, hm, hp]
      | some r => simp only [updateFromHeaders, hm, hp]
  refine ⟨h1, fun dh => ?_, fun mh => ?_⟩
  · rw [h1 dh]
    exact min_le_right rm s.tokens
  · cases mh with
    | none => simp only [updateFromHeaders, hd]
    | some str =>
      cases hp : parseIntJs str with
      | none => simp only [updateFromHeaders, hp, hd]
      | some r => simp only [updateFromHeaders, hp, hd]

/-- Claim C5 witness: a reported minute-remaining of 10 against a local 30
yields 10; a reported day-remaining of 4900 sets the daily count to 100. -/
theorem updateFromHeaders_minRule_witness :
    parseIntJs "10" = some 10
    ∧ parseIntJs "4900" = some 4900
    ∧ ((∀ dh, (updateFromHeaders (some "10") dh tSample).tokens
          = min 10 tSample.tokens)
      ∧ (∀ dh, (updateFromHeaders (some "10") dh tSample).tokens
          ≤ tSample.tokens)
      ∧ (∀ mh, (updateFromHeaders mh (some "4900") tSample).dailyCount
          = rlDailyLimit - 4900)) :=
  ⟨by decide, by decide,
   updateFromHeaders_minRule tSample "10" "4900" 10 4900 (by decide)
     (by decide)⟩

/-- Claim C10: when a rate-limit header is absent or does not parse as an
integer, `updateFromHeaders` leaves the corresponding local counter
unchanged, and it never modifies the in-flight count, the refill
timestamp, the daily-reset instant, or the waiter queue under any input. -/
theorem updateFromHeaders_frame (s : RateLimiter) :
    (∀ dh, (updateFromHeaders none dh s).tokens = s.tokens)
    ∧ (∀ str dh, parseIntJs str = none →
        (updateFromHeaders (some str) dh s).tokens = s.tokens)
    ∧ (∀ mh, (updateFromHeaders mh none s).dailyCount = s.dailyCount)
    ∧ (∀ mh str, parseIntJs str = none →
        (updateFromHeaders mh (some str) s).dailyCount = s.dailyCount)
    ∧ (∀ mh dh,
        (updateFromHeaders mh dh s).concurrent = s.concurrent
        ∧ (updateFromHeaders mh dh s).lastRefill = s.lastRefill
        ∧ (updateFromHeaders mh dh s).dailyReset = s.dailyReset
        ∧ (updateFromHeaders mh dh s).waitingQueue = s.waitingQueue) := by
  refine ⟨?_, ?_, ?_, ?_, ?_⟩
  · intro dh
    cases dh with
    | none => simp only [updateFromHeaders]
    | some str =>
      cases hp : parseIntJs str with
      | none => simp only [updateFromHeaders, hp]
      | some r => simp only [updateFromHeaders, hp]
  · intro str dh hp
    cases dh with
    | none => simp only [updateFromHeaders, hp]
    | some str2 =>
      cases hp2 : parseIntJs str2 with
      | none => simp only [updateFromHeaders, hp, hp2]
      | some r => simp only [updateFromHeaders, hp, hp2]
  · intro mh
    cases mh with
    | none => simp only [updateFromHeaders]
    | some str =>
      cases hp : parseIntJs str with
      | none => simp only [updateFromHeaders, hp]
      | some r => simp only [updateFromHeaders, hp]
  · intro mh str hp
    cases mh with
    | none => simp only [updateFromHeaders, hp]
    | some str2 =>
      cases hp2 : parseIntJs str2 with
      | none => simp only [updateFromHeaders, hp, hp2]
      | some r => simp only [updateFromHeaders, hp, hp2]
  · intro mh dh
    cases mh with
    | none =>
      cases dh with
      | none => exact ⟨rfl, rfl, rfl, rfl⟩
      | some str =>
        cases hp : parseIntJs str with
        | none => simp [updateFromHeaders, hp]
        | some r => simp [updateFromHeaders, hp]
    | some str =>
      cases hp : parseIntJs str with
      | none =>
        cases dh with
        | none => simp [updateFromHeaders, hp]
        | some str2 =>
          cases hp2 : parseIntJs str2 with
          | none => simp [updateFromHeaders, hp, hp2]
          | some r => simp [updateFromHeaders, hp, hp2]
      | some r =>
        cases dh with
        | none => simp [updateFromHeaders, hp]
        | some str2 =>
          cases hp2 : parseIntJs str2 with
          | none => simp [updateFromHeaders, hp, hp2]
          | some r2 => simp [updateFromHeaders, hp, hp2]

/-- Claim C10 witness: a malformed minute header leaves `tokens` at 30, a
malformed day header leaves `dailyCount` at 0, and a fully parsed pair of
headers still leaves `concurrent` untouched. -/
theorem updateFromHeaders_frame_witness :
    parseIntJs "abc" = none
    ∧ (updateFromHeaders (some "abc") (some "99") tSample).tokens
        = tSample.tokens
    ∧ (updateFromHeaders (some "12") (some "abc") tSample).dailyCount
        = tSample.dailyCount
    ∧ (updateFromHeaders (some "12") (some "99") tSample).concurrent
        = tSample.concurrent :=
  ⟨by decide,
   (updateFromHeaders_frame tSample).2.1 "abc" (some "99") (by decide),
   (updateFromHeaders_frame tSample).2.2.2.1 (some "12") "abc" (by decide),
   ((updateFromHeaders_frame tSample).2.2.2.2 (some "12") (some "99")).1⟩

/-- Claim C6 counterexample: a present but malformed `Retry-After` header
("abc") makes `retryAfter ? parseInt(retryAfter, 10) : 60` evaluate
`parseInt`, which yields `NaN` (modelled `none`) — not the claimed
default of 60. -/
theorem retryAfterMalformed_cex :
    handleErrorResponse 429 (some "abc") = .rateLimit none
    ∧ handleErrorResponse 429 (some "abc") ≠ .rateLimit (some 60) := by
  decide

/-- Claim C6 (amended): for every HTTP 429 response the raised
`RateLimitError` carries `retrySeconds` computed from the `retry-after`
header, which defaults to 60 only when the header is absent or the empty
string; a present non-empty header is parsed with `parseInt`, giving the
parsed integer on success and `NaN` (not 60) when malformed. -/
theorem retryAfterParsing_amended (h : Option String) :
    handleErrorResponse 429 h = .rateLimit (retrySecondsOf h)
    ∧ retrySecondsOf none = some 60
    ∧ retrySecondsOf (some "") = some 60
    ∧ (∀ str n, str ≠ "" → parseIntJs str = some n →
        retrySecondsOf (some str) = some n)
    ∧ (∀ str, str ≠ "" → parseIntJs str = none →
        retrySecondsOf (some str) = none) := by
  refine ⟨?_, rfl, by decide, ?_, ?_⟩
  · simp [handleErrorResponse]
  · intro str n hne hp
    simp [retrySecondsOf, hne, hp]
  · intro str hne hp
    simp [retrySecondsOf, hne, hp]

/-- Claim C6 witness: "7" parses to 7 seconds and "abc" to `NaN`. -/
theorem retryAfterParsing_amended_witness :
    ("7" : String) ≠ ""
    ∧ parseIntJs "7" = some 7
    ∧ retrySecondsOf (some "7") = some 7
    ∧ ("abc" : String) ≠ ""
    ∧ parseIntJs "abc" = none
    ∧ retrySecondsOf (some "abc") = none :=
  ⟨by decide, by decide,
   (retryAfterParsing_amended (some "7")).2.2.2.1 "7" 7 (by decide)
     (by decide),
   by decide, by decide,
   (retryAfterParsing_amended (some "abc")).2.2.2.2 "abc" (by decide)
     (by decide)⟩

/-- Claim C7 counterexample: HTTP 501 is in the 5xx range but falls to the
`default` arm of the status switch, which classifies it as the generic
`API_ERROR`, not `SERVER_ERROR`. -/
theorem serverError501_cex :
    handleErrorResponse 501 none = .api "API_ERROR" 501
    ∧ handleErrorResponse 501 none ≠ .api "SERVER_ERROR" 501 := by
  decide

/-- Claim C7 (amended): exactly the statuses 500, 502, 503 and 504 are
classified `SERVER_ERROR` (carrying the status code); every other status
in the 5xx range falls through to the generic `API_ERROR`
classification. -/
theorem serverErrorMapping_amended (status : Nat) (h : Option String) :
    ((status = 500 ∨ status = 502 ∨ status = 503 ∨ status = 504) →
      handleErrorResponse status h = .api "SERVER_ERROR" status)
    ∧ (500 ≤ status → status ≤ 599 →
        ¬(status = 500 ∨ status = 502 ∨ status = 503 ∨ status = 504) →
        handleErrorResponse status h = .api "API_ERROR" status) := by
  constructor
  · intro hs
    rcases hs with rfl | rfl | rfl | rfl <;> simp [handleErrorResponse]
  · intro h5 h9 hns
    simp only [handleErrorResponse]
    rw [if_neg (by omega), if_neg (by omega), if_neg (by omega),
      if_neg (by omega), if_neg (by omega), if_neg hns]

/-- Claim C7 witness: 503 maps to `SERVER_ERROR`, 501 to `API_ERROR`. -/
theorem serverErrorMapping_amended_witness :
    ((503 : Nat) = 500 ∨ (503 : Nat) = 502 ∨ (503 : Nat) = 503
      ∨ (503 : Nat) = 504)
    ∧ handleErrorResponse 503 none = .api "SERVER_ERROR" 503
    ∧ (500 : Nat) ≤ 501
    ∧ (501 : Nat) ≤ 599
    ∧ ¬((501 : Nat) = 500 ∨ (501 : Nat) = 502 ∨ (501 : Nat) = 503
      ∨ (501 : Nat) = 504)
    ∧ handleErrorResponse 501 none = .api "API_ERROR" 501 :=
  ⟨by decide, (serverErrorMapping_amended 503 none).1 (by decide),
   by decide, by decide, by decide,
   (serverErrorMapping_amended 501 none).2 (by decide) (by decide)
     (by decide)⟩

lemma entersAll_active (now : Int) (cs : List Nat) (t : OAuthClientModel)
    (h : t.refreshActive = true) :
    entersAll now cs t = { t with waiters := t.waiters ++ cs } := by
  induction cs generalizing t with
  | nil => simp [entersAll]
  | cons c cs ih =>
    have hstep : getAccessTokenStep now t c
        = { t with waiters := t.waiters ++ [c] } := by
      simp [getAccessTokenStep, h]
    have hcons : entersAll now (c :: cs) t
        = entersAll now cs { t with waiters := t.waiters ++ [c] } := by
      show entersAll now cs (getAccessTokenStep now t c)
        = entersAll now cs { t with waiters := t.waiters ++ [c] }
      rw [hstep]
    rw [hcons, ih { t with waiters := t.waiters ++ [c] } h]
    simp

/-- Claim C8: any number of callers entering `getAccessToken` while no
credential is cached, before the acquisition completes, trigger exactly
one acquisition request to the token endpoint (the first caller starts
it, every later caller joins the single in-flight promise), and on
completion every caller receives the same access-token value. -/
theorem tokenSingleFlight (now tc : Int) (cs : List Nat) (tok : OAuthToken)
    (h : cs ≠ []) :
    (entersAll now cs initOAuth).requests = 1
    ∧ (entersAll now cs initOAuth).refreshActive = true
    ∧ (acquireTokenComplete tc tok (entersAll now cs initOAuth)).requests = 1
    ∧ (acquireTokenComplete tc tok (entersAll now cs initOAuth)).results
        = cs.map (fun c => (c, tok.access_token)) := by
  cases cs with
  | nil => exact absurd rfl h
  | cons c rest =>
    have h1 : getAccessTokenStep now initOAuth c = { initOAuth with refreshActive := true, waiters := [c], requests := 1 } := rfl
    have h2 : entersAll now (c :: rest) initOAuth = { initOAuth with refreshActive := true, waiters := c :: rest, requests := 1 } := by
      show entersAll now rest (getAccessTokenStep now initOAuth c) = { initOAuth with refreshActive := true, waiters := c :: rest, requests := 1 }
      rw [h1, entersAll_active now rest _ rfl]
      simp
    rw [h2]
    exact ⟨rfl, rfl, rfl, by simp [acquireTokenComplete, initOAuth]⟩

/-- Claim C8 witness: three concurrent callers with an empty cache produce
one token-endpoint request and all three observe the same token. -/
theorem tokenSingleFlight_witness :
    ([0, 1, 2] : List Nat) ≠ []
    ∧ ((entersAll 0 [0, 1, 2] initOAuth).requests = 1
      ∧ (entersAll 0 [0, 1, 2] initOAuth).refreshActive = true
      ∧ (acquireTokenComplete 5 ⟨"tok", "bearer", 3600, none⟩
          (entersAll 0 [0, 1, 2] initOAuth)).requests = 1
      ∧ (acquireTokenComplete 5 ⟨"tok", "bearer", 3600, none⟩
          (entersAll 0 [0, 1, 2] initOAuth)).results
          = ([0, 1, 2] : List Nat).map (fun c => (c, "tok"))) :=
  ⟨by decide,
   tokenSingleFlight 0 5 [0, 1, 2] ⟨"tok", "bearer", 3600, none⟩
     (by decide)⟩

/-- Claim C9: with no refresh in flight, `getAccessToken` returns the
cached credential (with no new acquisition) exactly when the current time
is still earlier than the absolute expiry minus the 5-minute buffer;
when no credential is cached or the cached one is inside the buffer, a
new acquisition is started; and the absolute expiry is computed at
acquisition time as `now + expires_in * 1000` — so a token with
`expires_in` of 1 second is never reused once inside the buffer window. -/
theorem tokenExpiryBuffer (t : OAuthClientModel) (now : Int) (c : Nat)
    (h : t.refreshActive = false) :
    (∀ tok, t.token = some tok →
        now < t.tokenExpiresAt - REFRESH_BUFFER_MS →
        getAccessTokenStep now t c
          = { t with results := t.results ++ [(c, tok.access_token)] })
    ∧ ((t.token = none ∨ t.tokenExpiresAt - REFRESH_BUFFER_MS ≤ now) →
        (getAccessTokenStep now t c).requests = t.requests + 1
        ∧ (getAccessTokenStep now t c).refreshActive = true)
    ∧ (∀ (tc : Int) (tok2 : OAuthToken),
        (acquireTokenComplete tc tok2 t).tokenExpiresAt
          = tc + tok2.expires_in * 1000) := by
  refine ⟨?_, ?_, fun tc tok2 => rfl⟩
  · intro tok htok hlt
    simp [getAccessTokenStep, h, htok, hlt]
  · intro hcase
    rcases hcase with hnone | hstale
    · exact ⟨by simp [getAccessTokenStep, h, hnone],
        by simp [getAccessTokenStep, h, hnone]⟩
    · cases htok : t.token with
      | none =>
        exact ⟨by simp [getAccessTokenStep, h, htok],
          by simp [getAccessTokenStep, h, htok]⟩
      | some tok =>
        have hnlt : ¬ now < t.tokenExpiresAt - REFRESH_BUFFER_MS := by
          omega
        exact ⟨by simp [getAccessTokenStep, h, htok, hnlt],
          by simp [getAccessTokenStep, h, htok, hnlt]⟩

/-- Claim C9 witness: a token acquired at time 0 with `expires_in` 1
expires at 1000ms; at time 1000 it is inside the 5-minute buffer, so the
next `getAccessToken` starts a fresh acquisition instead of reusing it. -/
theorem tokenExpiryBuffer_witness :
    (acquireTokenComplete 0 ⟨"abc", "bearer", 1, none⟩
        initOAuth).refreshActive = false
    ∧ (acquireTokenComplete 0 ⟨"abc", "bearer", 1, none⟩
        initOAuth).tokenExpiresAt = 1000
    ∧ ((acquireTokenComplete 0 ⟨"abc", "bearer", 1, none⟩
        initOAuth).tokenExpiresAt - REFRESH_BUFFER_MS ≤ 1000)
    ∧ (getAccessTokenStep 1000
        (acquireTokenComplete 0 ⟨"abc", "bearer", 1, none⟩ initOAuth)
        7).requests
        = (acquireTokenComplete 0 ⟨"abc", "bearer", 1, none⟩
            initOAuth).requests + 1
    ∧ (getAccessTokenStep 1000
        (acquireTokenComplete 0 ⟨"abc", "bearer", 1, none⟩ initOAuth)
        7).refreshActive = true :=
  ⟨rfl, by decide, by decide,
   ((tokenExpiryBuffer
      (acquireTokenComplete 0 ⟨"abc", "bearer", 1, none⟩ initOAuth)
      1000 7 rfl).2.1 (Or.inr (by decide))).1,
   ((tokenExpiryBuffer
      (acquireTokenComplete 0 ⟨"abc", "bearer", 1, none⟩ initOAuth)
      1000 7 rfl).2.1 (Or.inr (by decide))).2⟩
